import Mathlib

/-
Verification of the picaso storefront server (src/unnamed/part_000, whose
generation and checkout handlers also appear verbatim in src/server.js).
The server glues three external capabilities together: image synthesis
(OpenAI), payment (Stripe checkout sessions) and fulfillment (Printful).
External calls are modelled by oracle parameters (an Except result per
call) and, for the payment capability, by an explicit session store, since
the repository keeps no durable state of its own.  JavaScript value
semantics that matter to the handlers (undefined versus empty string,
truthiness, template interpolation, the logical-or default idiom) are
modelled explicitly on Option String.
-/

namespace Picaso

/-- JS template interpolation of a possibly undefined string value:
interpolating undefined produces the literal text "undefined". -/
def jsTemplateStr : Option String → String
  | none => "undefined"
  | some s => s

/-- JS logical-or on possibly undefined strings, as used in
`customer.name || session.customer_details?.name`: a missing value and the
empty string are falsy and fall through to the right operand. -/
def jsOr : Option String → Option String → Option String
  | none, b => b
  | some s, b => if s = "" then b else some s

/-- JS logical-or against a literal default, as used in the Printful
recipient construction `customerInfo.name || 'PICASO Customer'`. -/
def jsOrDefault : Option String → String → String
  | none, d => d
  | some s, d => if s = "" then d else s

/-! ### Generation stage (lines 48-127 of src/unnamed/part_000) -/

/-- An error thrown by the OpenAI client; the handler only inspects its
`status` field, which may be absent. -/
structure OpenAIError where
  status : Option Nat
deriving DecidableEq, Repr

/-- Response of the generation endpoints: either the 200 success JSON
`\x7bsuccess: true, imageUrl, prompt\x7d` or an error JSON with its HTTP status. -/
inductive GenResult where
  | success (imageUrl : String) (prompt : String)
  | failure (status : Nat) (error : String)
deriving DecidableEq, Repr

def promptRequiredMsg : String := "Prompt is required"

def rateLimitMsg : String := "Rate limit exceeded. Please try again later."

def invalidPromptMsg : String := "Invalid prompt. Please try a different description."

def genFailedMsg : String := "Failed to generate image. Please try again."

def variationFailedMsg : String := "Failed to generate variation"

/-- POST /api/generate-image (lines 48-90).  `prompt` is the destructured
body field (`none` models a missing field); `synth` is the outcome of the
`openai.images.generate` call.  Returns the response together with a flag
recording whether the synthesis capability was invoked.  The guard is the
JS truthiness test `if (!prompt)`, so only a missing or empty prompt is
rejected. -/
def generateImage (prompt : Option String) (synth : Except OpenAIError String) :
    GenResult × Bool :=
  match prompt with
  | none => (.failure 400 promptRequiredMsg, false)
  | some p =>
    if p = "" then (.failure 400 promptRequiredMsg, false)
    else
      match synth with
      | .ok url => (.success url p, true)
      | .error e =>
        if e.status = some 429 then (.failure 429 rateLimitMsg, true)
        else if e.status = some 400 then (.failure 400 invalidPromptMsg, true)
        else (.failure 500 genFailedMsg, true)

/-- The fixed list of six modifier clauses of the variation endpoint
(lines 97-104). -/
def variations : List String :=
  ["with different lighting",
   "from a different angle",
   "with more detail",
   "in a different composition",
   "with varied colors",
   "with different mood"]

/-- The index computed by `Math.floor(Math.random() * variations.length)`
when the random draw is the grid point k / N of [0, 1): the floor of
(k / N) * 6 is the natural-number division 6 * k / N. -/
def variationIndex (k N : Nat) : Nat :=
  variations.length * k / N

/-- POST /api/generate-variation (lines 93-127).  `basePrompt` is the
destructured body field (`none` models a missing field, which the JS
template turns into the text "undefined"); `i` is the randomly selected
index; `synth` is the outcome of the `openai.images.generate` call.  There
is no validation: the synthesis capability is always invoked, and the
catch-all maps every error to a 500. -/
def generateVariation (basePrompt : Option String) (i : Fin variations.length)
    (synth : Except OpenAIError String) : GenResult × Bool :=
  let enhancedPrompt := jsTemplateStr basePrompt ++ ", " ++ variations.get i
  match synth with
  | .ok url => (.success url enhancedPrompt, true)
  | .error _ => (.failure 500 variationFailedMsg, true)

/-! ### Checkout stage (lines 130-220 of src/unnamed/part_000) -/

/-- The metadata object attached to a checkout session:
`\x7bprompt, imageUrl\x7d`, each field possibly undefined. -/
structure SessionMetadata where
  prompt : Option String
  imageUrl : Option String
deriving DecidableEq, Repr

/-- The product data of the single line item (lines 142-146). -/
structure ProductData where
  name : String
  description : String
  images : List (Option String)
deriving DecidableEq, Repr

/-- The single line item of the checkout session (lines 139-150). -/
structure LineItem where
  product_data : ProductData
  unit_amount : Nat
  quantity : Nat
deriving DecidableEq, Repr

/-- The parameters passed to `stripe.checkout.sessions.create`
(lines 136-159). -/
structure CheckoutParams where
  line_items : List LineItem
  mode : String
  success_url : String
  cancel_url : String
  metadata : SessionMetadata
deriving DecidableEq, Repr

def productName : String := "PICASO Custom Artwork Print"

def descSuffix : String := " - 12x12 Matte Canvas with Stretcher Bar"

/-- The checkout-session creation parameters built by the handler, with
`origin` standing for the request `protocol://host` pair. -/
def mkCheckoutParams (origin : String) (imageUrl prompt : Option String) :
    CheckoutParams :=
  { line_items :=
      [{ product_data :=
           { name := productName
             description := "\"" ++ jsTemplateStr prompt ++ "\"" ++ descSuffix
             images := [imageUrl] }
         unit_amount := 4999
         quantity := 1 }]
    mode := "payment"
    success_url := origin ++ "/success?session_id={CHECKOUT_SESSION_ID}"
    cancel_url := origin ++ "/"
    metadata := { prompt := prompt, imageUrl := imageUrl } }

/-- A hosted session held by the external payment capability. -/
structure StripeSession where
  id : String
  url : String
  params : CheckoutParams
deriving DecidableEq, Repr

/-- Modelled from the documented behaviour of the external payment
capability: the sessions it holds, most recent first.  Creation stores the
parameters under a fresh id; retrieval by id returns the stored session,
so the attached metadata is read back exactly as written. -/
structure StripeState where
  sessions : List StripeSession
deriving DecidableEq, Repr

def StripeState.create (st : StripeState) (id url : String)
    (params : CheckoutParams) : StripeState × StripeSession :=
  let s : StripeSession := { id := id, url := url, params := params }
  ({ sessions := s :: st.sessions }, s)

def StripeState.retrieve (st : StripeState) (id : String) : Option StripeSession :=
  st.sessions.find? (fun s => s.id == id)

/-- Response of POST /api/create-checkout-session: the 200 JSON
`\x7burl\x7d` or the 500 error JSON carrying `error.message`. -/
inductive CheckoutResp where
  | urlJson (url : String)
  | errorJson (status : Nat) (msg : String)
deriving DecidableEq, Repr

/-- POST /api/create-checkout-session (lines 130-166).  `imageUrl` and
`prompt` are the destructured body fields; `provider` is the outcome of
the `stripe.checkout.sessions.create` call, carrying the fresh session id
and hosted url on success and `error.message` on failure.  The handler
performs no validation of its own: the payment capability is invoked
unconditionally (recorded by the returned flag), and a provider error
surfaces as a 500. -/
def createCheckoutSessionHandler (st : StripeState) (origin : String)
    (provider : Except String (String × String)) (imageUrl prompt : Option String) :
    StripeState × CheckoutResp × Bool :=
  let params := mkCheckoutParams origin imageUrl prompt
  match provider with
  | .ok (newId, newUrl) =>
    let (st2, s) := st.create newId newUrl params
    (st2, .urlJson s.url, true)
  | .error msg => (st, .errorJson 500 msg, true)

/-- Response of GET /success: the rendered confirmation page (whose HTML
interpolates the recovered prompt, image url and session id) or the
redirect to the home page taken on any retrieval failure. -/
inductive SuccessResp where
  | page (prompt : String) (imageUrl : String) (sessionId : String)
  | redirectHome
deriving DecidableEq, Repr

/-- GET /success (lines 169-220).  `session_id` is the query parameter;
retrieval of a missing or unknown id throws inside the try block, which
the catch turns into a redirect to the home page. -/
def successHandler (st : StripeState) (session_id : Option String) : SuccessResp :=
  match session_id with
  | none => .redirectHome
  | some sid =>
    match st.retrieve sid with
    | none => .redirectHome
    | some s =>
      .page (jsTemplateStr s.params.metadata.prompt)
        (jsTemplateStr s.params.metadata.imageUrl) sid

/-! ### Fulfillment stage (lines 223-321 of src/unnamed/part_000) -/

/-- A Stripe customer record as used by the webhook (only name and email
are read). -/
structure StripeCustomer where
  name : Option String
  email : Option String
deriving DecidableEq, Repr

/-- The address inside `session.customer_details`. -/
structure StripeAddress where
  line1 : Option String
  city : Option String
  state : Option String
  country : Option String
  postal_code : Option String
deriving DecidableEq, Repr

/-- `session.customer_details` of a completed checkout session. -/
structure CustomerDetails where
  name : Option String
  email : Option String
  address : Option StripeAddress
deriving DecidableEq, Repr

/-- The session object embedded in a webhook event
(`event.data.object`). -/
structure WebhookSession where
  id : Option String
  metadata : Option SessionMetadata
  customer : Option String
  customer_details : Option CustomerDetails
deriving DecidableEq, Repr

/-- `event.data` of a webhook event. -/
structure EventData where
  object : Option WebhookSession
deriving DecidableEq, Repr

/-- A parsed webhook event. -/
structure StripeEvent where
  type : Option String
  data : Option EventData
deriving DecidableEq, Repr

/-- The customerInfo record assembled by the webhook handler
(lines 296-304). -/
structure CustomerInfo where
  name : Option String
  email : Option String
  address1 : Option String
  city : Option String
  state : Option String
  country : Option String
  zip : Option String
deriving DecidableEq, Repr

/-- Assembly of customerInfo from the retrieved customer and the
session customer_details (lines 296-304): name and email fall back via JS
logical-or, the address fields come from customer_details alone. -/
def mkCustomerInfo (customer : StripeCustomer) (details : Option CustomerDetails) :
    CustomerInfo :=
  { name := jsOr customer.name (details.bind (fun d => d.name))
    email := jsOr customer.email (details.bind (fun d => d.email))
    address1 := (details.bind (fun d => d.address)).bind (fun a => a.line1)
    city := (details.bind (fun d => d.address)).bind (fun a => a.city)
    state := (details.bind (fun d => d.address)).bind (fun a => a.state)
    country := (details.bind (fun d => d.address)).bind (fun a => a.country)
    zip := (details.bind (fun d => d.address)).bind (fun a => a.postal_code) }

def defaultRecipientName : String := "PICASO Customer"

def defaultAddress1 : String := "123 Main St"

def defaultCity : String := "New York"

def defaultState : String := "NY"

def defaultCountry : String := "US"

def defaultZip : String := "10001"

/-- The recipient block of the Printful order (lines 239-246), each field
defaulted by JS logical-or when the customer info is incomplete. -/
structure Recipient where
  name : String
  address1 : String
  city : String
  state_code : String
  country_code : String
  zip : String
deriving DecidableEq, Repr

def mkRecipient (info : CustomerInfo) : Recipient :=
  { name := jsOrDefault info.name defaultRecipientName
    address1 := jsOrDefault info.address1 defaultAddress1
    city := jsOrDefault info.city defaultCity
    state_code := jsOrDefault info.state defaultState
    country_code := jsOrDefault info.country defaultCountry
    zip := jsOrDefault info.zip defaultZip }

/-- The single order item (lines 247-259): fixed canvas variant 10309,
quantity 1, referencing the uploaded file id. -/
structure OrderItem where
  variant_id : Nat
  quantity : Nat
  fileIds : List Nat
deriving DecidableEq, Repr

/-- The body of the Printful order-creation request (lines 238-261). -/
structure OrderData where
  recipient : Recipient
  items : List OrderItem
  external_id : Option String
deriving DecidableEq, Repr

def mkOrderData (info : CustomerInfo) (fileId : Nat) (sessionId : Option String) :
    OrderData :=
  { recipient := mkRecipient info
    items := [{ variant_id := 10309, quantity := 1, fileIds := [fileId] }]
    external_id := sessionId }

/-- A call issued to the fulfillment capability: the file ingest POST
/files with the image url, or the order POST /orders with the order
body. -/
inductive PrintfulCall where
  | fileUpload (url : Option String)
  | orderCreate (order : OrderData)
deriving DecidableEq, Repr

def PrintfulCall.isUpload : PrintfulCall → Bool
  | .fileUpload _ => true
  | .orderCreate _ => false

def PrintfulCall.isOrder : PrintfulCall → Bool
  | .fileUpload _ => false
  | .orderCreate _ => true

def countUploads (calls : List PrintfulCall) : Nat :=
  calls.countP PrintfulCall.isUpload

def countOrders (calls : List PrintfulCall) : Nat :=
  calls.countP PrintfulCall.isOrder

/-- Oracle outcomes of the two Printful calls: the returned file id and
order id, or the failure. -/
structure PrintfulEnv where
  uploadResult : Except String Nat
  orderResult : Except String Nat
deriving Repr

/-- createPrintfulOrder (lines 223-274).  Uploads the image first; on
upload failure the error is rethrown and the order call never happens; on
upload success the order request is issued (and its own failure
rethrown).  The returned list records the calls issued, in order. -/
def createPrintfulOrder (env : PrintfulEnv) (imageUrl : Option String)
    (prompt : Option String) (info : CustomerInfo) (sessionId : Option String) :
    Except String Nat × List PrintfulCall :=
  match env.uploadResult with
  | .error e => (.error e, [.fileUpload imageUrl])
  | .ok fileId =>
    let orderData := mkOrderData info fileId sessionId
    match env.orderResult with
    | .error e => (.error e, [.fileUpload imageUrl, .orderCreate orderData])
    | .ok orderId => (.ok orderId, [.fileUpload imageUrl, .orderCreate orderData])

/-- Response of POST /webhook/stripe: the 200 JSON
`\x7breceived: true\x7d` or the 400 text `Webhook Error: ...`. -/
inductive WebhookResp where
  | received
  | webhookError (msg : String)
deriving DecidableEq, Repr

/-- Placeholder for the JSON.parse exception message of an unparsable
body. -/
def parseFailMsg : String := "Unexpected token in JSON"

/-- The TypeError message raised when `event.data.object` is accessed
through an undefined field. -/
def typeErrMsg : String := "TypeError: undefined object"

/-- The TypeError message raised when destructuring
`session.metadata` while it is undefined. -/
def destructureErrMsg : String := "TypeError: cannot destructure metadata"

/-- Oracle outcomes of the external calls the webhook handler makes. -/
structure WebhookEnv where
  customerRetrieve : Except String StripeCustomer
  printful : PrintfulEnv
deriving Repr

def completedType : String := "checkout.session.completed"

/-- POST /webhook/stripe (lines 277-321).  `sig` is the stripe-signature
header, read into a local but never used (signature verification is
skipped).  `body` is the JSON.parse outcome of the raw body (`none` means
the parse threw).  Everything inside the outer try is covered by the 400
catch: an unparsable body, a missing `data`/`object`/`metadata` on a
completed-session event, or a failed customer retrieval all yield the 400
response.  The createPrintfulOrder call sits in its own inner try, so its
failure is swallowed and the 200 acknowledgment still goes out. -/
def webhookHandler (sig : Option String) (body : Option StripeEvent)
    (env : WebhookEnv) : WebhookResp × List PrintfulCall :=
  match body with
  | none => (.webhookError parseFailMsg, [])
  | some event =>
    if event.type = some completedType then
      match event.data with
      | none => (.webhookError typeErrMsg, [])
      | some d =>
        match d.object with
        | none => (.webhookError typeErrMsg, [])
        | some session =>
          match session.metadata with
          | none => (.webhookError destructureErrMsg, [])
          | some md =>
            match env.customerRetrieve with
            | .error e => (.webhookError e, [])
            | .ok customer =>
              let info := mkCustomerInfo customer session.customer_details
              let (_, calls) := createPrintfulOrder env.printful md.imageUrl md.prompt info session.id
              (.received, calls)
    else (.received, [])

/-! ### Claims about the generation stage -/

/-- Claim C1 counterexample: the single-space prompt is whitespace-only,
yet the JS truthiness guard `if (!prompt)` accepts it, the synthesis
capability IS invoked, and the response is the 200 success JSON rather
than a validation error. -/
theorem C1_counterexample :
    generateImage (some (" ")) (Except.ok ("http://img")) =
      (GenResult.success ("http://img") (" "), true) := rfl

/-- Claim C1 (amended): for every prompt that is missing or the empty
string, the generate operation returns the 400 validation error and never
invokes the synthesis capability; whitespace-only non-empty prompts are
not rejected. -/
theorem C1_empty_prompt_rejected (prompt : Option String)
    (synth : Except OpenAIError String)
    (h : prompt = none ∨ prompt = some ("")) :
    generateImage prompt synth = (GenResult.failure 400 promptRequiredMsg, false) := by
  rcases h with h | h <;> subst h <;> rfl

/-- Claim C1 witness: the empty prompt is rejected without an external
call. -/
theorem C1_empty_prompt_rejected_witness :
    generateImage (some ("")) (Except.ok ("u")) =
      (GenResult.failure 400 promptRequiredMsg, false) :=
  C1_empty_prompt_rejected (some ("")) (Except.ok ("u")) (Or.inr rfl)

/-- Claim C6: on a failing generate invocation the synthesis capability
was invoked, a provider error with status 429 maps to the distinct 429
rate-limited response, status 400 maps to the distinct 400 invalid-input
response, and every other provider failure maps to the single generic 500
response. -/
theorem C6_provider_error_mapping (p : String) (e : OpenAIError)
    (hp : ¬ p = "") :
    (generateImage (some p) (Except.error e)).2 = true ∧
    (e.status = some 429 →
      (generateImage (some p) (Except.error e)).1 = GenResult.failure 429 rateLimitMsg) ∧
    (e.status = some 400 →
      (generateImage (some p) (Except.error e)).1 = GenResult.failure 400 invalidPromptMsg) ∧
    (¬ e.status = some 429 → ¬ e.status = some 400 →
      (generateImage (some p) (Except.error e)).1 = GenResult.failure 500 genFailedMsg) := by
  refine ⟨?_, ?_, ?_, ?_⟩
  · simp only [generateImage, if_neg hp]
    split
    · rfl
    · split <;> rfl
  · intro h
    simp [generateImage, hp, h]
  · intro h
    have h429 : ¬ e.status = some 429 := by
      rw [h]
      simp
    simp [generateImage, hp, h429, h]
  · intro h1 h2
    simp [generateImage, hp, h1, h2]

/-- Claim C6 witness: a provider error with status 429 surfaces as the
429 rate-limited response. -/
theorem C6_provider_error_mapping_witness :
    (generateImage (some ("x")) (Except.error { status := some 429 })).1 =
      GenResult.failure 429 rateLimitMsg :=
  (C6_provider_error_mapping ("x") { status := some 429 } (by decide)).2.1 rfl

/-- Claim C10: the variation endpoint performs no input validation: for
every basePrompt, including a missing field (which interpolates as the
text "undefined"), the synthesis capability is invoked with the
concatenated prompt, and every failure surfaces as a 500, never as a 400
validation error. -/
theorem C10_variation_unvalidated (basePrompt : Option String)
    (i : Fin variations.length) (synth : Except OpenAIError String) :
    (generateVariation basePrompt i synth).2 = true ∧
    (∀ url, synth = Except.ok url →
      (generateVariation basePrompt i synth).1 =
        GenResult.success url (jsTemplateStr basePrompt ++ ", " ++ variations.get i)) ∧
    (∀ status msg,
      (generateVariation basePrompt i synth).1 = GenResult.failure status msg →
      status = 500) := by
  cases synth with
  | ok url =>
    refine ⟨rfl, ?_, ?_⟩
    · intro u hu
      cases hu
      rfl
    · intro s msg h
      simp [generateVariation] at h
  | error e =>
    refine ⟨rfl, ?_, ?_⟩
    · intro u hu
      cases hu
    · intro s msg h
      simp [generateVariation] at h
      omega

/-- Claim C10 witness: a missing basePrompt still reaches the synthesis
capability. -/
theorem C10_variation_unvalidated_witness :
    (generateVariation none ⟨0, by decide⟩ (Except.ok ("u"))).2 = true :=
  (C10_variation_unvalidated none ⟨0, by decide⟩ (Except.ok ("u"))).1

/-- Helper: the floor-division selection over a grid of n * m equally
likely draws hits each of the n indices exactly m times. -/
theorem filter_div_card (m n j : Nat) (hm : 0 < m) (hj : j < n) :
    ((Finset.range (n * m)).filter (fun k => k / m = j)).card = m := by
  have hset : (Finset.range (n * m)).filter (fun k => k / m = j) =
      Finset.Ico (j * m) (j * m + m) := by
    ext k
    simp only [Finset.mem_filter, Finset.mem_range, Finset.mem_Ico]
    constructor
    · rintro ⟨_, hdiv⟩
      refine ⟨?_, ?_⟩
      · calc j * m = k / m * m := by rw [hdiv]
          _ ≤ k := Nat.div_mul_le_self k m
      · have hlt : k / m < j + 1 := by omega
        have hk : k < (j + 1) * m := (Nat.div_lt_iff_lt_mul hm).mp hlt
        rw [Nat.succ_mul] at hk
        exact hk
    · rintro ⟨h1, h2⟩
      have hdiv : k / m = j := by
        apply Nat.div_eq_of_lt_le h1
        rw [Nat.succ_mul]
        exact h2
      refine ⟨?_, hdiv⟩
      calc k < j * m + m := h2
        _ = (j + 1) * m := (Nat.succ_mul j m).symm
        _ ≤ n * m := Nat.mul_le_mul_right m hj
  rw [hset, Nat.card_Ico]
  exact Nat.add_sub_cancel_left (j * m) m

/-- Claim C7: a successful variation returns the prompt
basePrompt ++ ", " ++ modifier where the modifier is drawn from the fixed
list of six clauses; the floor-of-random-times-length selection, over a
uniform grid of draws whose size is a multiple of the list length, picks
every index equally often. -/
theorem C7_variation_prompt_shape (basePrompt url : String)
    (i : Fin variations.length) (m j : Nat) (hm : 0 < m)
    (hj : j < variations.length) :
    (generateVariation (some basePrompt) i (Except.ok url)).1 =
      GenResult.success url (basePrompt ++ ", " ++ variations.get i) ∧
    variations.get i ∈ variations ∧
    variations.length = 6 ∧
    ((Finset.range (variations.length * m)).filter
      (fun k => variationIndex k (variations.length * m) = j)).card = m := by
  refine ⟨rfl, List.get_mem variations i.1 i.2, rfl, ?_⟩
  have h6 : 0 < variations.length := by decide
  have hidx : ∀ k, variationIndex k (variations.length * m) = k / m := by
    intro k
    unfold variationIndex
    rw [Nat.mul_div_mul_left _ _ h6]
  simp only [hidx]
  exact filter_div_card m variations.length j hm hj

/-- Claim C7 witness: at index 0 the returned prompt appends the first
modifier clause. -/
theorem C7_variation_prompt_shape_witness :
    (generateVariation (some ("cat")) ⟨0, by decide⟩ (Except.ok ("u"))).1 =
      GenResult.success ("u") (("cat") ++ (", ") ++ variations.get ⟨0, by decide⟩) :=
  (C7_variation_prompt_shape ("cat") ("u") ⟨0, by decide⟩ 1 0 (by decide) (by decide)).1

/-! ### Claims about the checkout stage -/

/-- Claim C2: a checkout created with a non-empty image reference and
prompt returns the hosted redirect url, and reading the session back via
the success recovery path renders exactly the (prompt, imageReference)
pair supplied at creation time. -/
theorem C2_metadata_roundtrip (st : StripeState)
    (origin newId newUrl imageUrl prompt : String)
    (himg : ¬ imageUrl = "") (hp : ¬ prompt = "") :
    (createCheckoutSessionHandler st origin (Except.ok (newId, newUrl))
        (some imageUrl) (some prompt)).2.1 = CheckoutResp.urlJson newUrl ∧
    successHandler
        (createCheckoutSessionHandler st origin (Except.ok (newId, newUrl))
          (some imageUrl) (some prompt)).1 (some newId) =
      SuccessResp.page prompt imageUrl newId := by
  constructor
  · rfl
  · simp [createCheckoutSessionHandler, successHandler, StripeState.create,
      StripeState.retrieve, mkCheckoutParams, jsTemplateStr, List.find?]

/-- Claim C2 witness: the scenario of the spec, checkout with a concrete
image url and prompt followed by the read back. -/
theorem C2_metadata_roundtrip_witness :
    (createCheckoutSessionHandler { sessions := [] } ("http://localhost:3000")
        (Except.ok (("cs_1"), ("https://pay.example/cs_1")))
        (some ("https://x/img.png")) (some ("a red fox in snow"))).2.1 =
      CheckoutResp.urlJson ("https://pay.example/cs_1") ∧
    successHandler
        (createCheckoutSessionHandler { sessions := [] } ("http://localhost:3000")
          (Except.ok (("cs_1"), ("https://pay.example/cs_1")))
          (some ("https://x/img.png")) (some ("a red fox in snow"))).1
        (some ("cs_1")) =
      SuccessResp.page ("a red fox in snow") ("https://x/img.png") ("cs_1") :=
  C2_metadata_roundtrip { sessions := [] } ("http://localhost:3000") ("cs_1")
    ("https://pay.example/cs_1") ("https://x/img.png") ("a red fox in snow")
    (by decide) (by decide)

/-- Claim C4: with empty imageUrl and prompt the checkout handler still
invokes the payment capability (the call flag is true and the session is
stored) and answers with the provider url rather than any validation
error: the guard the spec requires of the coordinator is absent. -/
theorem C4_checkout_lacks_validation_guard :
    createCheckoutSessionHandler { sessions := [] } ("http://localhost:3000")
        (Except.ok (("cs_1"), ("https://pay.example/cs_1")))
        (some ("")) (some ("")) =
      (StripeState.mk
          [StripeSession.mk ("cs_1") ("https://pay.example/cs_1")
            (mkCheckoutParams ("http://localhost:3000") (some ("")) (some ("")))],
        CheckoutResp.urlJson ("https://pay.example/cs_1"), true) := rfl

/-! ### Claims about the webhook -/

/-- Claim C9: the webhook handler reads the stripe-signature header but
never uses it: two requests with the same body and environment but
different (or absent) signature headers behave identically. -/
theorem C9_signature_not_used (s1 s2 : Option String)
    (body : Option StripeEvent) (env : WebhookEnv) :
    webhookHandler s1 body env = webhookHandler s2 body env := rfl

/-- Claim C8: a parsable notification whose event kind is anything other
than checkout.session.completed triggers no fulfillment call and is still
acknowledged with the 200 received JSON. -/
theorem C8_other_events_no_calls (sig : Option String) (event : StripeEvent)
    (env : WebhookEnv) (h : ¬ event.type = some completedType) :
    webhookHandler sig (some event) env = (WebhookResp.received, []) := by
  simp [webhookHandler, h]

/-- Claim C8 witness: a payment_intent.created event is acknowledged with
no fulfillment calls. -/
theorem C8_other_events_no_calls_witness :
    webhookHandler none
        (some (StripeEvent.mk (some ("payment_intent.created")) none))
        (WebhookEnv.mk (Except.error ("no customer"))
          (PrintfulEnv.mk (Except.error ("down")) (Except.error ("down")))) =
      (WebhookResp.received, []) :=
  C8_other_events_no_calls none
    (StripeEvent.mk (some ("payment_intent.created")) none)
    (WebhookEnv.mk (Except.error ("no customer"))
      (PrintfulEnv.mk (Except.error ("down")) (Except.error ("down"))))
    (by decide)

/-- Claim C3 counterexample: a completed-session notification whose
metadata resolves, with the upload call failing: the handler still
acknowledges, but the trace holds the single upload call and NO
order-creation call, refuting the claimed exactly-one order call. -/
theorem C3_counterexample :
    webhookHandler none
        (some (StripeEvent.mk (some ("checkout.session.completed"))
          (some (EventData.mk (some (WebhookSession.mk (some ("cs_1"))
            (some (SessionMetadata.mk (some ("p")) (some ("http://i"))))
            (some ("cus_1")) none))))))
        (WebhookEnv.mk (Except.ok (StripeCustomer.mk none none))
          (PrintfulEnv.mk (Except.error ("upload failed")) (Except.ok 7))) =
      (WebhookResp.received, [PrintfulCall.fileUpload (some ("http://i"))]) := rfl

/-- Claim C3 (amended): for a completed-session notification whose
metadata resolves and whose customer retrieval succeeds, the handler
issues exactly one upload call; if the upload succeeds it is followed by
exactly one order-creation call, in that order; and the 200 received
acknowledgment goes out regardless of whether the upload or order calls
succeed or fail. -/
theorem C3_fulfillment_call_sequence (sig : Option String)
    (event : StripeEvent) (d : EventData) (session : WebhookSession)
    (md : SessionMetadata) (customer : StripeCustomer) (env : WebhookEnv)
    (htype : event.type = some completedType)
    (hdata : event.data = some d)
    (hobj : d.object = some session)
    (hmd : session.metadata = some md)
    (hcust : env.customerRetrieve = Except.ok customer) :
    (webhookHandler sig (some event) env).1 = WebhookResp.received ∧
    countUploads (webhookHandler sig (some event) env).2 = 1 ∧
    (∀ fileId, env.printful.uploadResult = Except.ok fileId →
      (webhookHandler sig (some event) env).2 =
        [PrintfulCall.fileUpload md.imageUrl,
         PrintfulCall.orderCreate
           (mkOrderData (mkCustomerInfo customer session.customer_details)
             fileId session.id)]) ∧
    (∀ e, env.printful.uploadResult = Except.error e →
      countOrders (webhookHandler sig (some event) env).2 = 0) := by
  have hw : webhookHandler sig (some event) env =
      (WebhookResp.received,
        (createPrintfulOrder env.printful md.imageUrl md.prompt
          (mkCustomerInfo customer session.customer_details) session.id).2) := by
    simp [webhookHandler, htype, hdata, hobj, hmd, hcust]
  rw [hw]
  cases hup : env.printful.uploadResult with
  | error e =>
    refine ⟨rfl, ?_, ?_, ?_⟩
    · simp [createPrintfulOrder, hup, countUploads, PrintfulCall.isUpload]
    · intro fileId hok
      simp at hok
    · intro e2 _
      simp [createPrintfulOrder, hup, countOrders, PrintfulCall.isOrder]
  | ok fileId =>
    cases hord : env.printful.orderResult with
    | error e =>
      refine ⟨rfl, ?_, ?_, ?_⟩
      · simp [createPrintfulOrder, hup, hord, countUploads,
          PrintfulCall.isUpload, PrintfulCall.isOrder]
      · intro f hok
        injection hok with hf
        subst hf
        simp [createPrintfulOrder, hup, hord]
      · intro e2 herr
        simp at herr
    | ok orderId =>
      refine ⟨rfl, ?_, ?_, ?_⟩
      · simp [createPrintfulOrder, hup, hord, countUploads,
          PrintfulCall.isUpload, PrintfulCall.isOrder]
      · intro f hok
        injection hok with hf
        subst hf
        simp [createPrintfulOrder, hup, hord]
      · intro e2 herr
        simp at herr

/-- Claim C3 witness: the concrete happy path issues the upload call then
the order call and acknowledges. -/
theorem C3_fulfillment_call_sequence_witness :
    (webhookHandler none
        (some (StripeEvent.mk (some ("checkout.session.completed"))
          (some (EventData.mk (some (WebhookSession.mk (some ("cs_1"))
            (some (SessionMetadata.mk (some ("p")) (some ("http://i"))))
            (some ("cus_1")) none))))))
        (WebhookEnv.mk (Except.ok (StripeCustomer.mk none none))
          (PrintfulEnv.mk (Except.ok 5) (Except.ok 9)))).1 =
      WebhookResp.received :=
  (C3_fulfillment_call_sequence none
    (StripeEvent.mk (some ("checkout.session.completed"))
      (some (EventData.mk (some (WebhookSession.mk (some ("cs_1"))
        (some (SessionMetadata.mk (some ("p")) (some ("http://i"))))
        (some ("cus_1")) none)))))
    (EventData.mk (some (WebhookSession.mk (some ("cs_1"))
      (some (SessionMetadata.mk (some ("p")) (some ("http://i"))))
      (some ("cus_1")) none)))
    (WebhookSession.mk (some ("cs_1"))
      (some (SessionMetadata.mk (some ("p")) (some ("http://i"))))
      (some ("cus_1")) none)
    (SessionMetadata.mk (some ("p")) (some ("http://i")))
    (StripeCustomer.mk none none)
    (WebhookEnv.mk (Except.ok (StripeCustomer.mk none none))
      (PrintfulEnv.mk (Except.ok 5) (Except.ok 9)))
    rfl rfl rfl rfl rfl).1

/-- Claim C5 counterexample: a perfectly parsable completed-session
notification whose session object has no metadata makes the destructuring
throw, and the handler answers 400, although the claim allows non-200
only for unparsable payloads. -/
theorem C5_counterexample :
    webhookHandler none
        (some (StripeEvent.mk (some ("checkout.session.completed"))
          (some (EventData.mk (some (WebhookSession.mk none none none none))))))
        (WebhookEnv.mk (Except.ok (StripeCustomer.mk none none))
          (PrintfulEnv.mk (Except.ok 1) (Except.ok 1))) =
      (WebhookResp.webhookError destructureErrMsg, []) := rfl

/-- Claim C5 (amended): the handler answers the 200 received JSON exactly
when the payload parses and either the event kind is not
checkout.session.completed, or the data, object and metadata fields are
all present and the customer retrieval succeeds; an unparsable payload, a
completed event with missing data, object or metadata, or a failed
customer retrieval yields the 400 response. -/
theorem C5_webhook_response_characterization (sig : Option String)
    (body : Option StripeEvent) (env : WebhookEnv) :
    (webhookHandler sig body env).1 = WebhookResp.received ↔
      ∃ event, body = some event ∧
        (¬ event.type = some completedType ∨
          ∃ d session md customer,
            event.data = some d ∧ d.object = some session ∧
            session.metadata = some md ∧
            env.customerRetrieve = Except.ok customer) := by
  cases body with
  | none => simp [webhookHandler]
  | some event =>
    by_cases htype : event.type = some completedType
    · cases hdata : event.data with
      | none => simp [webhookHandler, htype, hdata]
      | some d =>
        cases hobj : d.object with
        | none => simp [webhookHandler, htype, hdata, hobj]
        | some session =>
          cases hmd : session.metadata with
          | none => simp [webhookHandler, htype, hdata, hobj, hmd]
          | some md =>
            cases hcust : env.customerRetrieve with
            | error e => simp [webhookHandler, htype, hdata, hobj, hmd, hcust]
            | ok customer => simp [webhookHandler, htype, hdata, hobj, hmd, hcust]
    · simp [webhookHandler, htype]

end Picaso
